import Mathlib

/-!
Shallow embedding of `src/solver.js` from the `intents-solver-example`
repository (an automated intents "solver": auction reactor, settlement
engine and withdrawal poller), together with proofs about the claims
of its specification.

Machine integers of the source are JavaScript `BigInt`s read from a
uint256 chain ledger, so they are modelled as `Nat`; JS `BigInt`
division truncates, which on non-negative operands coincides with
`Nat` division.  JS `undefined` fields are modelled as `Option`,
and JS truthiness of strings (`undefined` and `""` are falsy) as
`jsTruthyStr`.  Thrown exceptions are modelled as explicit error
constructors of result types.
-/

namespace Solver

/-- JS `String.prototype.includes`: `pat` occurs as a contiguous
substring of `s`.  Used to model `e.message.includes(...)` at
`solver.js` line 109. -/
def jsIncludes (s pat : String) : Bool :=
  decide (List.IsInfix pat.toList s.toList)

/-- JS truthiness of a possibly-`undefined` string: `undefined` and
the empty string are falsy, every other string is truthy. -/
def jsTruthyStr : Option String → Bool
  | none => false
  | some s => s ≠ ""

/-! ## Order-ledger data model (spec §3, read via `getOrder`) -/

/-- Order status codes delivered by the SDK.  Modelled from the spec:
the `OrderStatus` enum lives in `@bronlabs/intents-sdk`, outside this
repository; the README fixes `USER_INITIATED = 1` and
`WAIT_FOR_SOLVER_TX = 5`, and the spec orders
`USER_INITIATED → AUCTION_IN_PROGRESS → MATCHED → WAIT_FOR_SOLVER_TX → SETTLED`. -/
def OrderStatus.USER_INITIATED : Nat := 1

/-- See `OrderStatus.USER_INITIATED`. -/
def OrderStatus.AUCTION_IN_PROGRESS : Nat := 2

/-- See `OrderStatus.USER_INITIATED`. -/
def OrderStatus.WAIT_FOR_SOLVER_TX : Nat := 5

/-- `pricingParams` of an order (`solver.js` lines 42, 77):
fixed-point integers, prices scaled by 1e18, amounts in token-native
units, `auctionDuration` in seconds. -/
structure PricingParams where
  maxPrice_e18 : Nat
  price_e18 : Nat
  baseAmount : Nat
  quoteAmount : Nat
  auctionDuration : Nat
  deriving DecidableEq, Repr

/-- One leg (`baseParams` / `quoteParams`) of an order. -/
structure LegParams where
  networkId : String
  tokenAddress : String
  userAddress : String
  deriving DecidableEq, Repr

/-- An order as returned by `orderEngine.getOrder` (`solver.js`
lines 42 and 77).  `status` is a chain uint; `createdAt` is a unix
timestamp in seconds. -/
structure Order where
  user : String
  status : Nat
  solver : String
  baseParams : LegParams
  quoteParams : LegParams
  pricingParams : PricingParams
  createdAt : Nat
  deriving DecidableEq, Repr

/-! ## Solver processor construction (`solver.js` lines 8–29) -/

/-- Environment-sourced configuration fields used by the
`SolverProcessor` constructor (`config.js`). -/
structure Config where
  rpcUrl : String
  orderEngineAddress : String
  solverPrivateKey : String
  bronApiKey : String
  bronWorkspaceId : String
  bronAccountId : String
  deriving DecidableEq, Repr

/-- The state a `SolverProcessor` instance carries after its
constructor ran (`solver.js` lines 9–29).

`walletAddress` records `wallet.address` of the `ethers.Wallet`
built at line 14 — the process's signing identity.  The constructor
of this version of `solver.js` computes that wallet but NEVER stores
its address on `this`: no line assigns `this.solverAddress`.  Hence
`solverAddress` — the field the settlement guard at line 80 actually
reads — is JS `undefined`, i.e. `none` here.  (`walletAddress` is
kept as a ghost field so that theorems can speak about the intended
identity; it is not readable by the embedded methods through
`solverAddress`.) -/
structure SolverProcessor where
  walletAddress : String
  solverAddress : Option String
  bronAccountId : String
  deriving DecidableEq, Repr

/-- The constructor `SolverProcessor(config)` (`solver.js` lines
9–29): stores `bronAccountId`; builds the wallet (whose address is
`walletAddr`, derived externally by `ethers` from
`config.solverPrivateKey`) but never assigns `this.solverAddress`,
which therefore stays `undefined` (`none`). -/
def SolverProcessor.init (cfg : Config) (walletAddr : String) : SolverProcessor :=
  { walletAddress := walletAddr
    solverAddress := none
    bronAccountId := cfg.bronAccountId }

/-! ## Token/asset resolution result (`solver.js` lines 172–193) -/

/-- Result of `getTokenInfo`: the payment API's asset id and its
decimal precision. -/
structure TokenInfo where
  decimals : Nat
  assetId : String
  deriving DecidableEq, Repr

/-! ## Payout amount (`solver.js` lines 87–88) -/

/-- `solver.js` lines 87–88:

`pricingParams.quoteAmount || (pricingParams.baseAmount *
pricingParams.price_e18 / (10n ** BigInt(baseToken.decimals + 18 -
quoteToken.decimals)))`.

JS `||` on `BigInt` takes the left operand unless it is `0n`; BigInt
`/` truncates (floor on non-negative).  When
`quoteDecimals > baseDecimals + 18` the JS exponent is a negative
`BigInt` and `10n ** …` throws a `RangeError`; that case is `none`. -/
def quoteAmountUnits (p : PricingParams) (baseDecimals quoteDecimals : Nat) :
    Option Nat :=
  if p.quoteAmount ≠ 0 then
    some p.quoteAmount
  else if quoteDecimals ≤ baseDecimals + 18 then
    some (p.baseAmount * p.price_e18 / 10 ^ (baseDecimals + 18 - quoteDecimals))
  else
    none

/-! ## Settlement-engine guards and withdrawal creation
(`solver.js` lines 76–107) -/

/-- The create-withdrawal request the settlement engine issues through
`bronApi.transactions.createTransaction` (`solver.js` lines 98–107).
The amount is kept in integer quote-native units; the decimal-string
formatting of line 91 is out of scope per the spec (§1). -/
structure CreateCall where
  accountId : String
  externalId : String
  assetId : String
  toAddress : String
  amountUnits : Nat
  deriving DecidableEq, Repr

/-- The guard-and-compute prefix of `sendSolverTransaction`
(`solver.js` lines 76–107): re-read order, return unless
`status === WAIT_FOR_SOLVER_TX` (line 79), return unless
`solver === this.solverAddress` (line 80; JS strict `!==` between the
ledger's `solver` string and the possibly-`undefined` field), resolve
both legs' tokens, compute the payout, and issue the create-withdrawal
call keyed by `"<orderId>-solver"`.  `none` means no payment-API call
and no ledger write happened (either guard returned, or the payout
exponent threw). -/
def sendSolverTransaction (sp : SolverProcessor) (orderId : String)
    (order : Order) (baseToken quoteToken : TokenInfo) : Option CreateCall :=
  if order.status ≠ OrderStatus.WAIT_FOR_SOLVER_TX then
    none
  else if sp.solverAddress ≠ some order.solver then
    none
  else
    (quoteAmountUnits order.pricingParams baseToken.decimals quoteToken.decimals).map
      fun units =>
        { accountId := sp.bronAccountId
          externalId := orderId ++ "-solver"
          assetId := quoteToken.assetId
          toAddress := order.quoteParams.userAddress
          amountUnits := units }

/-! ## Payment-API withdrawal jobs (spec §6, `Modelled from the spec`) -/

/-- The substring of the payment API's duplicate-key error message
that `solver.js` line 109 tests for. -/
def alreadyExistsSignal : String := "\"error\":\"already-exists\""

/-- A withdrawal job record as stored by the payment API, reduced to
the fields the settlement flow reads. -/
structure BronTx where
  transactionId : String
  externalId : String
  call : CreateCall
  deriving DecidableEq, Repr

/-- Modelled from the spec: the custodial payment API's transaction
store (`@bronlabs/bron-sdk`, outside this repository).  Spec §6:
`createTransaction` is idempotent by `externalId` and "may fail with
an \"already exists\" signal instead of succeeding". -/
structure BronState where
  txs : List BronTx
  nextId : Nat
  deriving DecidableEq, Repr

/-- Modelled from the spec: `createTransaction({accountId, externalId,
type: withdrawal, amount, assetId, toAddress}) -> job` — creates a
fresh job unless a job with the same `externalId` already exists, in
which case it fails with the already-exists signal (spec §6). -/
def BronState.createTransaction (st : BronState) (c : CreateCall) :
    Except String BronTx × BronState :=
  if st.txs.any (fun t => t.externalId = c.externalId) then
    (Except.error alreadyExistsSignal, st)
  else
    let tx : BronTx :=
      { transactionId := "bron-" ++ toString st.nextId
        externalId := c.externalId
        call := c }
    (Except.ok tx, { txs := st.txs ++ [tx], nextId := st.nextId + 1 })

/-- Modelled from the spec: `getTransactions(filter: {accountId,
externalId}) -> job[]` with `limit: '1'` — the first stored job whose
`externalId` matches (spec §6: "used to recover an existing job after
an idempotency collision"). -/
def BronState.getTransactions (st : BronState) (externalId : String) :
    Option BronTx :=
  (st.txs.filter (fun t => t.externalId = externalId)).head?

/-- Outcome of the `try { createTransaction } catch` block of
`sendSolverTransaction` (`solver.js` lines 95–130). -/
structure SettleCreateOutcome where
  /-- The `withdrawal` variable handed to the poller, when the flow
  reaches line 130; `none` when the attempt was abandoned. -/
  withdrawal : Option BronTx
  /-- Number of `[Critical Alert]` log lines emitted by this block. -/
  criticalAlerts : Nat
  /-- Whether a `setTimeout` re-enqueueing `(orderId, status)` on
  `this.delayedQueue` was scheduled (lines 122–124). -/
  delayedRetryScheduled : Bool
  /-- The flow crashed (JS `TypeError`): `withdrawal` stayed
  `undefined` after the already-exists recovery found no job, and
  line 130 dereferences it. -/
  crashed : Bool
  deriving DecidableEq, Repr

/-- The catch-handler logic of `solver.js` lines 95–130, as a function
of the create call's response and of the recovery fetch's result:
on success continue with the fresh job; on an error whose message
contains the already-exists signal, recover the existing job by
`externalId` and continue with it (lines 109–118); on any other error
log a `[Critical Alert]`, schedule a 15 s delayed re-enqueue of the
event, and return (lines 119–127). -/
def settleCreate (resp : Except String BronTx) (fetched : Option BronTx) :
    SettleCreateOutcome :=
  match resp with
  | Except.ok w => ⟨some w, 0, false, false⟩
  | Except.error msg =>
    if jsIncludes msg alreadyExistsSignal then
      match fetched with
      | some existing => ⟨some existing, 0, false, false⟩
      | none => ⟨none, 0, false, true⟩
    else
      ⟨none, 1, true, false⟩

/-- One full run of the withdrawal-creation step of the settlement
engine against the payment-API state: issue the create call, run the
catch handler (recovery fetch reads the post-create state). -/
def runSettlementCreate (st : BronState) (c : CreateCall) :
    SettleCreateOutcome × BronState :=
  let (resp, st') := st.createTransaction c
  (settleCreate resp (st'.getTransactions c.externalId), st')

/-! ## Withdrawal poller (`solver.js` lines 138–170) -/

/-- One entry of `withdrawal.extra.blockchainDetails` as read at
`solver.js` line 147; `blockchainTxId` may be absent. -/
structure BlockchainDetail where
  blockchainTxId : Option String
  deriving DecidableEq, Repr

/-- The `extra` object of a withdrawal job; `blockchainDetails` may be
absent (line 147 guards it with `?.`). -/
structure JobExtra where
  blockchainDetails : Option (List BlockchainDetail)
  deriving DecidableEq, Repr

/-- A withdrawal job as observed by the poller.  `extra` may be absent:
line 147 reads `withdrawal.extra.blockchainDetails` with NO optional
chaining on `.extra`, so an absent `extra` makes the tick throw.
`terminatedAt` is the terminal marker tested at line 158. -/
structure Job where
  transactionId : String
  status : String
  extra : Option JobExtra
  terminatedAt : Option String
  deriving DecidableEq, Repr

/-- The evaluation of
`withdrawal.extra.blockchainDetails?.[0]?.blockchainTxId`
(`solver.js` line 147): a `TypeError` (`Except.error`) when `extra`
is absent, otherwise the possibly-absent first detail's
possibly-absent tx id. -/
def rawTxId (j : Job) : Except Unit (Option String) :=
  match j.extra with
  | none => Except.error ()
  | some ex =>
    Except.ok (ex.blockchainDetails.bind fun ds =>
      ds.head?.bind fun d => d.blockchainTxId)

/-- What a single poll tick of `asyncWaitingForBlockchainTxHash`
decides about the job object it holds (`solver.js` lines 147–169). -/
inductive PollOutcome where
  /-- Lines 149–156: `blockchainTxId` truthy AND
  `withdrawal.status === 'completed'` — submit
  `setSolverTxOnQuoteNetwork(orderId, blockchainTxId)` and stop. -/
  | confirmed (txId : String)
  /-- Lines 158–161: `withdrawal.terminatedAt` truthy — log one
  `[Critical Alert]` and return (no reschedule). -/
  | terminated
  /-- Lines 163–169: reschedule another tick after 2000 ms. -/
  | keepWaiting
  /-- Line 147 threw (absent `extra`): the promise rejects; the
  enclosing `.catch` logs one `[Critical Alert]` and nothing is
  rescheduled. -/
  | errored
  deriving DecidableEq, Repr

/-- One poll tick's decision on the job object `w` it holds
(`solver.js` lines 147–169). -/
def pollStep (w : Job) : PollOutcome :=
  match rawTxId w with
  | Except.error _ => PollOutcome.errored
  | Except.ok t =>
    if jsTruthyStr t && w.status == "completed" then
      PollOutcome.confirmed (t.getD "")
    else if jsTruthyStr w.terminatedAt then
      PollOutcome.terminated
    else
      PollOutcome.keepWaiting

/-- Where a polling run stands after consuming a finite prefix of
fetch results. -/
inductive RunState where
  /-- The poller is still alive: a 2 s reschedule is pending with the
  given job object held. -/
  | running (j : Job)
  /-- Stopped after submitting `txId` to the order ledger. -/
  | confirmedDone (txId : String)
  /-- Stopped at the terminal marker (one critical alert, no retry). -/
  | terminatedDone
  /-- Stopped because a tick threw (one critical alert via `.catch`,
  no reschedule). -/
  | erroredDone
  deriving DecidableEq, Repr

/-- The tail-recursive polling loop (`asyncWaitingForBlockchainTxHash`
rescheduling itself via `setTimeout`, `solver.js` lines 138–170), run
against a finite prefix of fetch results.  Each list element is one
tick's `getTransactionById` result: `some j` a successful fetch,
`none` a throw — which line 143–145 logs and swallows, leaving the
previous tick's job object in `withdrawal` (on the first tick, the
object `sendSolverTransaction` handed over).  An exhausted list means
the poller is still rescheduling. -/
def pollRun (stale : Job) : List (Option Job) → RunState
  | [] => RunState.running stale
  | f :: fs =>
    match pollStep (f.getD stale) with
    | PollOutcome.keepWaiting => pollRun (f.getD stale) fs
    | PollOutcome.confirmed s => RunState.confirmedDone s
    | PollOutcome.terminated => RunState.terminatedDone
    | PollOutcome.errored => RunState.erroredDone

/-- Number of poll ticks actually executed by `pollRun` on this fetch
prefix (each tick costs one `sleep(1000)` plus a 2000 ms reschedule
when it continues). -/
def pollRunTicks (stale : Job) : List (Option Job) → Nat
  | [] => 0
  | f :: fs =>
    match pollStep (f.getD stale) with
    | PollOutcome.keepWaiting => pollRunTicks (f.getD stale) fs + 1
    | _ => 1

/-- The `blockchainTxId` arguments submitted to
`orderEngine.setSolverTxOnQuoteNetwork` (`solver.js` line 153) during
a polling run. -/
def runLedgerCalls (stale : Job) : List (Option Job) → List String
  | [] => []
  | f :: fs =>
    match pollStep (f.getD stale) with
    | PollOutcome.keepWaiting => runLedgerCalls (f.getD stale) fs
    | PollOutcome.confirmed s => [s]
    | PollOutcome.terminated => []
    | PollOutcome.errored => []

/-- Number of `[Critical Alert]` log lines the polling run emits
(line 159 on termination; the `.catch` of lines 133–135 / 166–168 on
a tick exception). -/
def runAlerts (stale : Job) : List (Option Job) → Nat
  | [] => 0
  | f :: fs =>
    match pollStep (f.getD stale) with
    | PollOutcome.keepWaiting => runAlerts (f.getD stale) fs
    | PollOutcome.confirmed _ => 0
    | PollOutcome.terminated => 1
    | PollOutcome.errored => 1

/-! ## Auction reactor (`solverReact`, `solver.js` lines 41–74) -/

/-- One element of the `addresses` array returned by
`bronApi.addresses.getDepositAddresses` (`solver.js` line 53);
the `address` property may be absent. -/
structure DepositAddress where
  address : Option String
  deriving DecidableEq, Repr

/-- What one invocation of `solverReact` does (`solver.js`
lines 41–74). -/
inductive ReactResult where
  /-- Line 44: status outside `{USER_INITIATED, AUCTION_IN_PROGRESS}`
  — silent no-op. -/
  | skippedStatus
  /-- Lines 48–51: auction expired — log and return. -/
  | expired
  /-- Line 53: the `addresses` array is empty, so the destructuring
  `{ addresses: [{ address: solverBaseAddress }] }` throws a
  `TypeError` that escapes `solverReact` (it is outside the
  `try` of lines 68–73). -/
  | crashedNoAddress
  /-- Lines 59–62: first entry present but its `address` falsy —
  log an error and return gracefully. -/
  | noAddress
  /-- Lines 64–73: submit `solverReact(orderId, solverBaseAddress,
  price)` on-chain (chain-side failures are caught at line 71). -/
  | committed (address : String) (price_e18 : Nat)
  deriving DecidableEq, Repr

/-- `solverReact` (`solver.js` lines 41–74) as a function of the
re-read order, the current wall clock `Date.now()` in milliseconds,
and the payment API's deposit-address answer.  The expiry test at
line 48 is `(createdAt + auctionDuration) * 1000n < Date.now()`
(seconds scaled to ms, strict less-than); the committed price is the
placeholder `pricingParams.maxPrice_e18` of line 64. -/
def solverReact (order : Order) (nowMs : Nat)
    (addresses : List DepositAddress) : ReactResult :=
  if ¬(order.status = OrderStatus.USER_INITIATED ∨
       order.status = OrderStatus.AUCTION_IN_PROGRESS) then
    ReactResult.skippedStatus
  else if (order.createdAt + order.pricingParams.auctionDuration) * 1000 < nowMs then
    ReactResult.expired
  else
    match addresses.head? with
    | none => ReactResult.crashedNoAddress
    | some a =>
      if jsTruthyStr a.address then
        ReactResult.committed (a.address.getD "") order.pricingParams.maxPrice_e18
      else
        ReactResult.noAddress

/-! ## Derived predicates and concrete inputs used by the theorems -/

/-- The job object never exposes a truthy blockchain tx id on this
snapshot: line 147 evaluates without throwing, and the value it
yields is JS-falsy (absent or `""`). -/
def hasNoTruthyTx (j : Job) : Bool :=
  match rawTxId j with
  | Except.error _ => false
  | Except.ok t => !(jsTruthyStr t)

/-- A concrete configuration. -/
def cfg0 : Config :=
  { rpcUrl := "http://localhost:8545"
    orderEngineAddress := "0xENGINE"
    solverPrivateKey := "0xKEY"
    bronApiKey := "jwk"
    bronWorkspaceId := "ws-1"
    bronAccountId := "acc-1" }

/-- The processor built by the constructor on `cfg0`, whose wallet
address (the process's signing identity) is `0xSOLVERWALLET`. -/
def proc0 : SolverProcessor := SolverProcessor.init cfg0 "0xSOLVERWALLET"

/-- A concrete order sitting at `WAIT_FOR_SOLVER_TX` whose committed
solver IS this process's wallet address. -/
def order5 : Order :=
  { user := "0xUSER"
    status := OrderStatus.WAIT_FOR_SOLVER_TX
    solver := "0xSOLVERWALLET"
    baseParams := { networkId := "ETH", tokenAddress := "0x0", userAddress := "0xUSERBASE" }
    quoteParams := { networkId := "TRX", tokenAddress := "0xTOKEN", userAddress := "0xUSERQUOTE" }
    pricingParams :=
      { maxPrice_e18 := 2000000000000000000
        price_e18 := 2000000000000000000
        baseAmount := 1000000
        quoteAmount := 0
        auctionDuration := 60 }
    createdAt := 100 }

/-- Base-leg token info (6 decimals). -/
def baseTok : TokenInfo := { decimals := 6, assetId := "eth-usdt" }

/-- Quote-leg token info (6 decimals). -/
def quoteTok : TokenInfo := { decimals := 6, assetId := "trx-usdt" }

/-- The spec's worked pricing example (§8): `baseAmount = 1_000_000`,
`price_e18 = 2_000_000_000_000_000_000`, `quoteAmount = 0`. -/
def examplePricing : PricingParams :=
  { maxPrice_e18 := 0
    price_e18 := 2000000000000000000
    baseAmount := 1000000
    quoteAmount := 0
    auctionDuration := 0 }

/-- A pricing record whose `quoteAmount` is nonzero. -/
def verbatimPricing : PricingParams :=
  { maxPrice_e18 := 0
    price_e18 := 2000000000000000000
    baseAmount := 1000000
    quoteAmount := 42
    auctionDuration := 0 }

/-- An empty payment-API store. -/
def st0 : BronState := { txs := [], nextId := 0 }

/-- A concrete create-withdrawal call for order `0xABC`. -/
def call0 : CreateCall :=
  { accountId := "acc-1"
    externalId := "0xABC-solver"
    assetId := "trx-usdt"
    toAddress := "0xUSERQUOTE"
    amountUnits := 2000000 }

/-- An in-flight withdrawal job: no blockchain details yet, not
terminated. -/
def pendingJob : Job :=
  { transactionId := "bron-0"
    status := "processing"
    extra := some { blockchainDetails := none }
    terminatedAt := none }

/-- A terminally failed withdrawal job that never exposed a tx id. -/
def termJob : Job :=
  { transactionId := "bron-0"
    status := "failed"
    extra := some { blockchainDetails := none }
    terminatedAt := some "2026-03-01T00:00:00Z" }

/-- A completed withdrawal job exposing tx id `0xdeadbeef`. -/
def completedJob : Job :=
  { transactionId := "bron-0"
    status := "completed"
    extra := some { blockchainDetails := some [{ blockchainTxId := some "0xdeadbeef" }] }
    terminatedAt := none }

/-- A job object with no `extra` field at all (e.g. the raw object
returned by `createTransaction` before any successful re-fetch). -/
def noExtraJob : Job :=
  { transactionId := "bron-0"
    status := "new"
    extra := none
    terminatedAt := none }

/-- A concrete order at `USER_INITIATED` with `createdAt = 100` s and
a 60 s auction window, so the deadline is 160 s = 160000 ms. -/
def orderBoundary : Order :=
  { user := "0xUSER"
    status := OrderStatus.USER_INITIATED
    solver := ""
    baseParams := { networkId := "ETH", tokenAddress := "0x0", userAddress := "0xUSERBASE" }
    quoteParams := { networkId := "TRX", tokenAddress := "0xTOKEN", userAddress := "0xUSERQUOTE" }
    pricingParams :=
      { maxPrice_e18 := 3000000000000000000
        price_e18 := 0
        baseAmount := 0
        quoteAmount := 0
        auctionDuration := 60 }
    createdAt := 100 }

/-! ## Theorems about the claims -/

/-- C1: the claim says settlement proceeds past its guards for every
order at `WAIT_FOR_SOLVER_TX` whose committed solver equals this
process's identity.  The code refutes it: the constructor never
assigns `this.solverAddress`, so the guard at `solver.js` line 80
compares the ledger's solver string against `undefined` and returns
for EVERY order — including `order5`, which is at
`WAIT_FOR_SOLVER_TX` and committed to this process's own wallet
address.  No payment-API call or ledger write ever happens. -/
theorem C1_settlement_guard_never_passes :
    (∀ (cfg : Config) (w orderId : String) (order : Order) (bt qt : TokenInfo),
      sendSolverTransaction (SolverProcessor.init cfg w) orderId order bt qt = none) ∧
    sendSolverTransaction proc0 "0xABC" order5 baseTok quoteTok = none ∧
    order5.status = OrderStatus.WAIT_FOR_SOLVER_TX ∧
    order5.solver = proc0.walletAddress := by
  refine ⟨?_, by decide, rfl, rfl⟩
  intro cfg w orderId order bt qt
  simp [sendSolverTransaction, SolverProcessor.init]

/-- C2: the payout amount equals `pricingParams.quoteAmount` verbatim
whenever that field is nonzero; otherwise (when the decimal exponent
is non-negative, which is the only case where the JS expression does
not throw) it is the exact truncating integer quotient
`baseAmount * price_e18 / 10 ^ (baseDecimals + 18 - quoteDecimals)`;
the spec's worked example yields `2_000_000`; and the computation is
a pure function, hence deterministic across repeated evaluation. -/
theorem C2_quote_amount_units (p : PricingParams) (baseDecimals quoteDecimals : Nat) :
    (p.quoteAmount ≠ 0 →
      quoteAmountUnits p baseDecimals quoteDecimals = some p.quoteAmount) ∧
    (p.quoteAmount = 0 → quoteDecimals ≤ baseDecimals + 18 →
      quoteAmountUnits p baseDecimals quoteDecimals =
        some (p.baseAmount * p.price_e18 /
          10 ^ (baseDecimals + 18 - quoteDecimals))) ∧
    quoteAmountUnits p baseDecimals quoteDecimals =
      quoteAmountUnits p baseDecimals quoteDecimals ∧
    quoteAmountUnits examplePricing 6 6 = some 2000000 := by
  refine ⟨?_, ?_, rfl, by decide⟩
  · intro h
    simp [quoteAmountUnits, h]
  · intro h h2
    simp [quoteAmountUnits, h, h2]

/-- Witness for C2 at concrete inputs: the verbatim branch on
`verbatimPricing` and the derivation branch on `examplePricing`. -/
theorem C2_quote_amount_units_witness :
    quoteAmountUnits verbatimPricing 6 6 = some verbatimPricing.quoteAmount ∧
    quoteAmountUnits examplePricing 6 6 =
      some (examplePricing.baseAmount * examplePricing.price_e18 / 10 ^ (6 + 18 - 6)) := by
  exact ⟨(C2_quote_amount_units verbatimPricing 6 6).1 (by decide),
         (C2_quote_amount_units examplePricing 6 6).2.1 (by decide) (by decide)⟩

/-- C7: the claim says the auction reactor is a no-op whenever
`now ≥ createdAt + auctionDuration`.  The code's test at `solver.js`
line 48 is STRICT (`deadline * 1000n < Date.now()`), so at
`now = deadline` exactly (here 160 s = 160000 ms) the reactor
proceeds and submits an on-chain commitment. -/
theorem C7_counterexample_boundary_commit :
    (orderBoundary.createdAt + orderBoundary.pricingParams.auctionDuration) * 1000
      = 160000 ∧
    solverReact orderBoundary 160000 [{ address := some "0xDEPOSIT" }] =
      ReactResult.committed "0xDEPOSIT" orderBoundary.pricingParams.maxPrice_e18 := by
  exact ⟨by decide, by decide⟩

/-- C7 (amended): the reactor produces no on-chain commitment whenever
`now` STRICTLY exceeds the deadline in the code's own units —
`(createdAt + auctionDuration) * 1000 < nowMs`. -/
theorem C7_expired_no_commit (order : Order) (nowMs : Nat)
    (addrs : List DepositAddress)
    (h : (order.createdAt + order.pricingParams.auctionDuration) * 1000 < nowMs) :
    ∀ (a : String) (p : Nat), solverReact order nowMs addrs ≠ ReactResult.committed a p := by
  intro a p
  unfold solverReact
  split
  · simp
  · simp [h]

/-- Witness for C7 (amended): one millisecond past the deadline, the
reactor no longer commits. -/
theorem C7_expired_no_commit_witness :
    solverReact orderBoundary 160001 [{ address := some "0xDEPOSIT" }] ≠
      ReactResult.committed "0xDEPOSIT" 3000000000000000000 :=
  C7_expired_no_commit orderBoundary 160001 [{ address := some "0xDEPOSIT" }]
    (by decide) "0xDEPOSIT" 3000000000000000000

/-- C8: the claim says a non-already-exists creation failure is
abandoned with NO automatic retry.  The code refutes it: `solver.js`
lines 122–124 schedule a 15 s `setTimeout` that re-enqueues the
`(orderId, status)` event on `this.delayedQueue`. -/
theorem C8_counterexample_retry_scheduled :
    jsIncludes "connect ETIMEDOUT" alreadyExistsSignal = false ∧
    settleCreate (Except.error "connect ETIMEDOUT") none =
      { withdrawal := none
        criticalAlerts := 1
        delayedRetryScheduled := true
        crashed := false } := by
  exact ⟨by decide, by decide⟩

/-- C8 (amended): on any creation failure whose message does not carry
the already-exists signal, the settlement engine logs exactly one
critical alert, hands no withdrawal on (no further payment-API or
ledger action for this trigger), and schedules exactly one automatic
retry: a 15 s delayed re-enqueue of the event. -/
theorem C8_other_failure_alert_and_delayed_retry
    (msg : String) (fetched : Option BronTx)
    (h : jsIncludes msg alreadyExistsSignal = false) :
    settleCreate (Except.error msg) fetched =
      { withdrawal := none
        criticalAlerts := 1
        delayedRetryScheduled := true
        crashed := false } := by
  simp [settleCreate, h]

/-- Witness for C8 (amended) at a concrete failure message. -/
theorem C8_other_failure_witness :
    settleCreate (Except.error "HTTP 500") none =
      { withdrawal := none
        criticalAlerts := 1
        delayedRetryScheduled := true
        crashed := false } :=
  C8_other_failure_alert_and_delayed_retry "HTTP 500" none (by decide)

/-- C9: the claim (and the spec) says that when the payment API
returns no deposit address the reactor no-ops gracefully.  The code's
own guard at lines 59–62 shows that intent — and indeed a present
entry with a falsy `address` no-ops — but an EMPTY `addresses` array
makes the destructuring at line 53 throw a `TypeError` that escapes
`solverReact`: the code is a slip against its own guard. -/
theorem C9_empty_addresses_crash :
    solverReact orderBoundary 1000 [] = ReactResult.crashedNoAddress ∧
    solverReact orderBoundary 1000 [{ address := none }] = ReactResult.noAddress := by
  exact ⟨by decide, by decide⟩

/-- Helper: a tick only decides `confirmed s` when the tx id it read
is the non-empty `s` and the job's status is exactly `"completed"`. -/
theorem pollStep_confirmed_prop (j : Job) (s : String)
    (h : pollStep j = PollOutcome.confirmed s) :
    s ≠ "" ∧ j.status = "completed" := by
  unfold pollStep at h
  cases hr : rawTxId j with
  | error e => rw [hr] at h; simp at h
  | ok t =>
    rw [hr] at h
    dsimp only at h
    by_cases hc : (jsTruthyStr t && j.status == "completed") = true
    · rw [if_pos hc] at h
      have hs : t.getD "" = s := by
        injection h
      obtain ⟨h1, h2⟩ := Bool.and_eq_true_iff.mp hc
      refine ⟨?_, by simpa using h2⟩
      cases t with
      | none => simp [jsTruthyStr] at h1
      | some s' =>
        simp [jsTruthyStr] at h1
        simpa [← hs] using h1
    · rw [if_neg hc] at h
      split at h <;> simp at h

/-- Helper: every tx id submitted to the order ledger during a polling
run is non-empty. -/
theorem runLedgerCalls_mem_ne_empty (fs : List (Option Job)) :
    ∀ (stale : Job) (s : String), s ∈ runLedgerCalls stale fs → s ≠ "" := by
  induction fs with
  | nil => intro stale s h; simp [runLedgerCalls] at h
  | cons f fs ih =>
    intro stale s h
    unfold runLedgerCalls at h
    cases hp : pollStep (f.getD stale) with
    | keepWaiting => rw [hp] at h; exact ih _ s h
    | confirmed s' =>
      rw [hp] at h
      simp at h
      subst h
      exact (pollStep_confirmed_prop _ _ hp).1
    | terminated => rw [hp] at h; simp at h
    | errored => rw [hp] at h; simp at h

/-- C4: the poller transitions to `CONFIRMED` and submits to the order
ledger only when the job it holds exposes a non-empty blockchain tx id
AND its status is exactly `"completed"`; in every polling run, no
empty tx id is ever submitted to `setSolverTxOnQuoteNetwork`. -/
theorem C4_confirm_requires_tx_and_completed
    (j : Job) (s : String) (stale : Job) (fs : List (Option Job)) :
    (pollStep j = PollOutcome.confirmed s → s ≠ "" ∧ j.status = "completed") ∧
    (s ∈ runLedgerCalls stale fs → s ≠ "") :=
  ⟨fun h => pollStep_confirmed_prop j s h,
   fun h => runLedgerCalls_mem_ne_empty fs stale s h⟩

/-- Witness for C4: a completed job carrying tx id `0xdeadbeef`. -/
theorem C4_confirm_requires_tx_and_completed_witness :
    (("0xdeadbeef" : String) ≠ "" ∧ completedJob.status = "completed") ∧
    ("0xdeadbeef" : String) ≠ "" :=
  ⟨(C4_confirm_requires_tx_and_completed completedJob "0xdeadbeef"
      pendingJob [some completedJob]).1 (by decide),
   (C4_confirm_requires_tx_and_completed completedJob "0xdeadbeef"
      pendingJob [some completedJob]).2 (by decide)⟩

/-- Helper: a job with no truthy tx id makes the tick terminate when
`terminatedAt` is truthy and keep waiting otherwise. -/
theorem pollStep_of_noTx (j : Job) (h : hasNoTruthyTx j = true) :
    pollStep j =
      if jsTruthyStr j.terminatedAt then PollOutcome.terminated
      else PollOutcome.keepWaiting := by
  unfold hasNoTruthyTx at h
  cases hr : rawTxId j with
  | error e => rw [hr] at h; simp at h
  | ok t =>
    rw [hr] at h
    simp at h
    unfold pollStep
    rw [hr]
    simp [h]

/-- Helper for C5, with the quantifier structure the induction needs. -/
theorem pollRun_terminated_aux (fs : List (Option Job)) :
    ∀ stale : Job, hasNoTruthyTx stale = true →
    (∀ j : Job, some j ∈ fs → hasNoTruthyTx j = true) →
    (∃ j : Job, some j ∈ fs ∧ jsTruthyStr j.terminatedAt = true) →
    pollRun stale fs = RunState.terminatedDone ∧
    runLedgerCalls stale fs = [] ∧
    runAlerts stale fs = 1 := by
  induction fs with
  | nil =>
    intro stale _ _ hterm
    obtain ⟨j, hj, _⟩ := hterm
    simp at hj
  | cons f fs ih =>
    intro stale h0 hall hterm
    have hj : hasNoTruthyTx (f.getD stale) = true := by
      cases f with
      | none => exact h0
      | some j' => exact hall j' (List.mem_cons_self _ _)
    have hps := pollStep_of_noTx _ hj
    by_cases ht : jsTruthyStr (f.getD stale).terminatedAt = true
    · rw [if_pos ht] at hps
      exact ⟨by simp [pollRun, hps], by simp [runLedgerCalls, hps],
             by simp [runAlerts, hps]⟩
    · rw [if_neg ht] at hps
      have hall' : ∀ j : Job, some j ∈ fs → hasNoTruthyTx j = true :=
        fun j hj' => hall j (List.mem_cons_of_mem _ hj')
      have hterm' : ∃ j : Job, some j ∈ fs ∧ jsTruthyStr j.terminatedAt = true := by
        obtain ⟨j, hjmem, hjt⟩ := hterm
        rcases List.mem_cons.mp hjmem with heq | hmem
        · exfalso
          apply ht
          rw [← heq] at hj ⊢
          exact hjt
        · exact ⟨j, hmem, hjt⟩
      have hrec := ih (f.getD stale) hj hall' hterm'
      exact ⟨by simp [pollRun, hps]; exact hrec.1,
             by simp [runLedgerCalls, hps]; exact hrec.2.1,
             by simp [runAlerts, hps]; exact hrec.2.2⟩

/-- C5: a withdrawal job that reaches its terminal marker while no
snapshot of it (initial object or any fetched state) ever exposed a
truthy blockchain tx id makes the poller stop at `TERMINATED`: no
`setSolverTxOnQuoteNetwork` call is made, exactly one critical alert
is emitted, and the run ends with no reschedule. -/
theorem C5_terminated_without_tx (stale : Job) (fs : List (Option Job))
    (h0 : hasNoTruthyTx stale = true)
    (hall : ∀ j : Job, some j ∈ fs → hasNoTruthyTx j = true)
    (hterm : ∃ j : Job, some j ∈ fs ∧ jsTruthyStr j.terminatedAt = true) :
    pollRun stale fs = RunState.terminatedDone ∧
    runLedgerCalls stale fs = [] ∧
    runAlerts stale fs = 1 :=
  pollRun_terminated_aux fs stale h0 hall hterm

/-- Witness for C5: a pending job whose next fetch is terminally
failed with no tx id. -/
theorem C5_terminated_without_tx_witness :
    pollRun pendingJob [some termJob] = RunState.terminatedDone ∧
    runLedgerCalls pendingJob [some termJob] = [] ∧
    runAlerts pendingJob [some termJob] = 1 :=
  C5_terminated_without_tx pendingJob [some termJob] (by decide)
    (by intro j hj; simp at hj; subst hj; decide)
    ⟨termJob, by simp, by decide⟩

/-- Helper: on a job whose tick keeps waiting, a run of `n` identical
fetches executes all `n` ticks, raises no alert, and is still
rescheduling afterwards. -/
theorem pollRun_replicate_pending (n : Nat) :
    ∀ j : Job, pollStep j = PollOutcome.keepWaiting →
    pollRun j (List.replicate n (some j)) = RunState.running j ∧
    pollRunTicks j (List.replicate n (some j)) = n ∧
    runAlerts j (List.replicate n (some j)) = 0 := by
  induction n with
  | zero =>
    intro j _
    exact ⟨rfl, rfl, rfl⟩
  | succ n ih =>
    intro j h
    rw [List.replicate_succ]
    have hrec := ih j h
    refine ⟨?_, ?_, ?_⟩
    · simp [pollRun, h]
      exact hrec.1
    · simp [pollRunTicks, h]
      exact hrec.2.1
    · simp [runAlerts, h]
      exact hrec.2.2

/-- C6 counterexample: the claim says the poller is bounded and alerts
on exhaustion.  The code refutes it: on a job that stays in-flight the
poller executes every tick, emits no alert, and is still rescheduling
— the number of executed ticks on all-pending fetch sequences is not
bounded by any `B`. -/
theorem C6_counterexample_unbounded_polling :
    pollRun pendingJob (List.replicate 3 (some pendingJob)) =
      RunState.running pendingJob ∧
    runAlerts pendingJob (List.replicate 3 (some pendingJob)) = 0 ∧
    ¬ ∃ B : Nat, ∀ n : Nat,
        pollRunTicks pendingJob (List.replicate n (some pendingJob)) ≤ B := by
  have hp : pollStep pendingJob = PollOutcome.keepWaiting := by decide
  refine ⟨(pollRun_replicate_pending 3 pendingJob hp).1,
          (pollRun_replicate_pending 3 pendingJob hp).2.2, ?_⟩
  rintro ⟨B, hB⟩
  have hBB := hB (B + 1)
  rw [(pollRun_replicate_pending (B + 1) pendingJob hp).2.1] at hBB
  omega

/-- C6 (amended): the poller has NO attempt bound — on a job whose
tick keeps waiting it reschedules after every one of the `n` ticks of
any fetch prefix, emits no alert, and stops only when a tick confirms,
terminates or throws. -/
theorem C6_poller_unbounded (j : Job) (n : Nat)
    (h : pollStep j = PollOutcome.keepWaiting) :
    pollRun j (List.replicate n (some j)) = RunState.running j ∧
    pollRunTicks j (List.replicate n (some j)) = n ∧
    runAlerts j (List.replicate n (some j)) = 0 :=
  pollRun_replicate_pending n j h

/-- Witness for C6 (amended) at three ticks of an in-flight job. -/
theorem C6_poller_unbounded_witness :
    pollRun pendingJob (List.replicate 3 (some pendingJob)) =
      RunState.running pendingJob ∧
    pollRunTicks pendingJob (List.replicate 3 (some pendingJob)) = 3 ∧
    runAlerts pendingJob (List.replicate 3 (some pendingJob)) = 0 :=
  C6_poller_unbounded pendingJob 3 (by decide)

/-- C10: on a tick whose `getTransactionById` throws, the poller does
not skip the tick — it evaluates the confirm/terminate conditions on
the job object held from before (on the first tick, the object handed
over by settlement): if that stale object has no `extra` field the
tick itself throws (line 147), the `.catch` logs one critical alert
and that order's polling ends; otherwise the tick's outcome is
exactly `pollStep` of the stale object, continuing with stale data. -/
theorem C10_fetch_failure_uses_stale_job (stale : Job) (fs : List (Option Job)) :
    (stale.extra = none →
      pollRun stale (none :: fs) = RunState.erroredDone ∧
      runAlerts stale (none :: fs) = 1) ∧
    (pollStep stale = PollOutcome.keepWaiting →
      pollRun stale (none :: fs) = pollRun stale fs) ∧
    (∀ s : String, pollStep stale = PollOutcome.confirmed s →
      pollRun stale (none :: fs) = RunState.confirmedDone s) ∧
    (pollStep stale = PollOutcome.terminated →
      pollRun stale (none :: fs) = RunState.terminatedDone) := by
  refine ⟨?_, ?_, ?_, ?_⟩
  · intro h
    have hp : pollStep stale = PollOutcome.errored := by
      simp [pollStep, rawTxId, h]
    exact ⟨by simp [pollRun, hp], by simp [runAlerts, hp]⟩
  · intro hp
    simp [pollRun, hp]
  · intro s hp
    simp [pollRun, hp]
  · intro hp
    simp [pollRun, hp]

/-- Witness for C10: a stale job with no `extra` field ends polling
with one critical alert when the fetch throws. -/
theorem C10_fetch_failure_uses_stale_job_witness :
    pollRun noExtraJob [none] = RunState.erroredDone ∧
    runAlerts noExtraJob [none] = 1 :=
  (C10_fetch_failure_uses_stale_job noExtraJob []).1 rfl

/-- C3: running the settlement engine's withdrawal-creation step twice
with the same `externalId` acts on exactly one job: the first run
creates job `w` and continues with it; the second run hits the
already-exists signal, recovers the SAME job `w` by `externalId`, and
continues with it — no critical alert, no retry, no crash, and the
store holds exactly one job under that `externalId`.  (The payment
API itself is modelled from the spec, §6.) -/
theorem C3_create_idempotent (st : BronState) (c : CreateCall)
    (hfresh : ∀ t ∈ st.txs, t.externalId ≠ c.externalId) :
    ∃ w : BronTx,
      (runSettlementCreate st c).1 =
        { withdrawal := some w, criticalAlerts := 0,
          delayedRetryScheduled := false, crashed := false } ∧
      w.externalId = c.externalId ∧
      (runSettlementCreate (runSettlementCreate st c).2 c).1 =
        { withdrawal := some w, criticalAlerts := 0,
          delayedRetryScheduled := false, crashed := false } ∧
      (runSettlementCreate (runSettlementCreate st c).2 c).2 =
        (runSettlementCreate st c).2 ∧
      ((runSettlementCreate st c).2.txs.filter
        (fun t => t.externalId = c.externalId)).length = 1 := by
  have hany : (st.txs.any fun t => t.externalId = c.externalId) = false := by
    rw [Bool.eq_false_iff]
    intro h
    obtain ⟨t, ht, heq⟩ := List.any_eq_true.mp h
    exact hfresh t ht (by simpa using heq)
  have hfil : (st.txs.filter fun t => t.externalId = c.externalId) = [] := by
    rw [List.filter_eq_nil_iff]
    intro t ht
    simpa using hfresh t ht
  have hsig : jsIncludes alreadyExistsSignal alreadyExistsSignal = true := by
    simp [jsIncludes, List.infix_refl]
  refine ⟨{ transactionId := "bron-" ++ toString st.nextId,
            externalId := c.externalId, call := c }, ?_, rfl, ?_, ?_, ?_⟩ <;>
    simp [runSettlementCreate, BronState.createTransaction,
          BronState.getTransactions, settleCreate, hany, hfil, hsig,
          List.filter_append, List.any_append]

/-- Witness for C3: the double create on an empty store and `call0`. -/
theorem C3_create_idempotent_witness :
    ∃ w : BronTx,
      (runSettlementCreate st0 call0).1 =
        { withdrawal := some w, criticalAlerts := 0,
          delayedRetryScheduled := false, crashed := false } ∧
      w.externalId = call0.externalId ∧
      (runSettlementCreate (runSettlementCreate st0 call0).2 call0).1 =
        { withdrawal := some w, criticalAlerts := 0,
          delayedRetryScheduled := false, crashed := false } ∧
      (runSettlementCreate (runSettlementCreate st0 call0).2 call0).2 =
        (runSettlementCreate st0 call0).2 ∧
      ((runSettlementCreate st0 call0).2.txs.filter
        (fun t => t.externalId = call0.externalId)).length = 1 :=
  C3_create_idempotent st0 call0 (by simp [st0])

end Solver
